import Mathlib

/-!
Verification of the streaming chat-completion client of this repository.

The repository's script (src/node/index.ts) builds an endpoint configuration
and a one-message streaming request, calls the client library's streamed
chat-completion operation, and forwards every received chunk to console.log
in a for-await loop.  The data model and the `streamCompletion` contract are
taken from the specification (§3–§5); the concrete configuration, request and
consumer loop are embedded from src/node/index.ts.
-/

/-- Endpoint configuration (§3 and src/node/index.ts lines 3–6):
a base URL and an opaque credential. -/
structure Config where
  baseURL : String
  key : String
deriving DecidableEq, Repr

/-- A chat message (§3 and src/node/index.ts line 10): a role paired with
textual content. -/
structure Message where
  role : String
  content : String
deriving DecidableEq, Repr

/-- A request (§3 and src/node/index.ts lines 9–13): an ordered sequence of
messages, a model identifier and a streaming flag. -/
structure Request where
  model : String
  messages : List Message
  stream : Bool
deriving DecidableEq, Repr

/-- A stream chunk (§3): an opaque unit of response data; no internal
structure is assumed, so it is embedded as an opaque string. -/
abbrev Chunk := String

/-- The error taxonomy of §7: transport failure before any response,
malformed or rejected response, and connection lost mid-stream. -/
inductive StreamError where
  | connectionError
  | protocolError
  | streamInterruptedError
deriving DecidableEq, Repr

/-- How one call to `streamCompletion` ends (§4.1): normal exhaustion of the
chunk sequence, one of the three stream errors, or the precondition
violation raised before any network call when the message list is empty. -/
inductive CallResult where
  | normal
  | failed (e : StreamError)
  | preconditionViolation
deriving DecidableEq, Repr

/-- The behavior of the remote endpoint during one call, the external
collaborator of §6: unreachable (DNS failure, connection refused, TLS
failure), a non-success or uninterpretable response, a connection dropped
after emitting some chunks but before a terminal marker, or a well-behaved
stream of chunks followed by a terminal marker. -/
inductive EndpointBehavior where
  | unreachable
  | badResponse
  | interrupted (chunks : List Chunk)
  | wellBehaved (chunks : List Chunk)
deriving DecidableEq, Repr

/-- The observable outcome of one call to `streamCompletion`: how many
outbound connections were opened, the chunks delivered to the consumer in
order, how the call ended, whether the connection was released on exit, and
whether any local or persisted state was modified. -/
structure Outcome where
  connectionsOpened : Nat
  delivered : List Chunk
  result : CallResult
  connectionReleased : Bool
  stateModified : Bool
deriving DecidableEq, Repr

/-- Modelled from the spec: the operation `streamCompletion(config, request)`
of §4.1.  Its implementation lives in the external client library invoked by
src/node/index.ts line 9 (`client.chat.completions.create`) and is not part
of the repository's sources, so it is modelled from the spec's words: an
empty message list fails before any network call (precondition violation);
otherwise exactly one outbound connection is opened, the chunks emitted by
the endpoint are delivered in order, errors are surfaced directly with no
internal retry, no local state is modified, and the connection is released
on every exit path (§4.1, §5, §7). -/
def streamCompletion (_config : Config) (request : Request)
    (endpoint : EndpointBehavior) : Outcome :=
  if request.messages = [] then
    ⟨0, [], .preconditionViolation, true, false⟩
  else
    match endpoint with
    | .unreachable => ⟨1, [], .failed .connectionError, true, false⟩
    | .badResponse => ⟨1, [], .failed .protocolError, true, false⟩
    | .interrupted cs => ⟨1, cs, .failed .streamInterruptedError, true, false⟩
    | .wellBehaved cs => ⟨1, cs, .normal, true, false⟩

/-- The consumer loop of src/node/index.ts lines 15–17:
for await (const chunk of stream) console.log(chunk).
Its output is the sequence of values forwarded to console.log, one per
received chunk, in arrival order. -/
def consumeLoop : List Chunk → List Chunk
  | [] => []
  | c :: rest => c :: consumeLoop rest

/-- The endpoint configuration hardcoded in src/node/index.ts lines 3–6. -/
def clientConfig : Config :=
  ⟨"http://localhost:8080/", "ollama"⟩

/-- The request hardcoded in src/node/index.ts lines 9–13. -/
def createRequest : Request :=
  ⟨"test", [⟨"user", "Say this is a test"⟩], true⟩

/-- The state of an in-progress iteration of the chunk sequence: the chunks
not yet yielded, and the chunks already yielded in order. -/
structure StreamState where
  remaining : List Chunk
  yielded : List Chunk
deriving DecidableEq, Repr

/-- One iteration step of the forward-only chunk sequence (§4.1 and the
for-await loop of src/node/index.ts lines 15–17): if chunks remain, the
head is yielded, removed from the remainder and appended to the yielded
prefix; otherwise the sequence is exhausted. -/
def streamStep : StreamState → Option (Chunk × StreamState)
  | ⟨[], _⟩ => none
  | ⟨c :: rest, ys⟩ => some (c, ⟨rest, ys ++ [c]⟩)

/-- The outcome of abandoning consumption of the stream early: the chunks
delivered before abandonment, whether the underlying connection was closed,
and any error raised for the abandoned remainder. -/
structure AbandonResult where
  delivered : List Chunk
  connectionClosed : Bool
  errorRaised : Option StreamError
deriving DecidableEq, Repr

/-- Modelled from the spec: cancellation (§5).  The cancellation path lives
in the external client library, not in the repository's sources, so it is
modelled from the spec's words: abandoning consumption after K chunks keeps
the K delivered chunks, closes the underlying connection promptly, and
raises no error for the abandoned remainder. -/
def abandonAfter (K : Nat) (cs : List Chunk) : AbandonResult :=
  ⟨cs.take K, true, none⟩

theorem consumeLoop_eq (cs : List Chunk) : consumeLoop cs = cs := by
  induction cs with
  | nil => rfl
  | cons c rest ih => simp [consumeLoop, ih]

/-- C1: For every call to streamCompletion with a reachable, well-behaved
endpoint, the sequence of chunks the consumer observes is exactly the
sequence the endpoint emitted, in the same order, with no chunk reordered,
merged or split by the client, and the sequence terminates normally. -/
theorem c1_ordered_delivery (cfg : Config) (req : Request) (cs : List Chunk)
    (h : req.messages ≠ []) :
    (streamCompletion cfg req (.wellBehaved cs)).delivered = cs ∧
    consumeLoop (streamCompletion cfg req (.wellBehaved cs)).delivered = cs ∧
    (streamCompletion cfg req (.wellBehaved cs)).result = .normal := by
  simp [streamCompletion, h, consumeLoop_eq]

/-- Witness for C1 at the concrete request of src/node/index.ts and a
two-chunk well-behaved endpoint. -/
theorem c1_ordered_delivery_witness :
    createRequest.messages ≠ [] ∧
    ((streamCompletion clientConfig createRequest
        (.wellBehaved ["This", " is a test"])).delivered = ["This", " is a test"] ∧
     consumeLoop (streamCompletion clientConfig createRequest
        (.wellBehaved ["This", " is a test"])).delivered = ["This", " is a test"] ∧
     (streamCompletion clientConfig createRequest
        (.wellBehaved ["This", " is a test"])).result = .normal) :=
  ⟨by decide, c1_ordered_delivery clientConfig createRequest ["This", " is a test"] (by decide)⟩

/-- C2: For every request whose message list is empty, streamCompletion
fails with a precondition violation before any network call is made: no
outbound connection is opened and zero chunks are delivered, whatever the
endpoint would have done. -/
theorem c2_empty_messages_no_network (cfg : Config) (req : Request)
    (e : EndpointBehavior) (h : req.messages = []) :
    (streamCompletion cfg req e).connectionsOpened = 0 ∧
    (streamCompletion cfg req e).delivered = [] ∧
    (streamCompletion cfg req e).result = .preconditionViolation := by
  simp [streamCompletion, h]

/-- Witness for C2 at a concrete empty-message request. -/
theorem c2_empty_messages_no_network_witness :
    (Request.mk "test" [] true).messages = [] ∧
    ((streamCompletion clientConfig ⟨"test", [], true⟩
        (.wellBehaved ["x"])).connectionsOpened = 0 ∧
     (streamCompletion clientConfig ⟨"test", [], true⟩
        (.wellBehaved ["x"])).delivered = [] ∧
     (streamCompletion clientConfig ⟨"test", [], true⟩
        (.wellBehaved ["x"])).result = .preconditionViolation) :=
  ⟨rfl, c2_empty_messages_no_network clientConfig ⟨"test", [], true⟩ (.wellBehaved ["x"]) rfl⟩

/-- C3: When the endpoint closes the connection after emitting its chunks
but before a terminal marker, the consumer observes exactly those chunks in
order followed by a StreamInterruptedError, never a silently truncated
normal termination, and the delivered chunks are not retracted. -/
theorem c3_interrupted_stream (cfg : Config) (req : Request) (cs : List Chunk)
    (h : req.messages ≠ []) :
    (streamCompletion cfg req (.interrupted cs)).delivered = cs ∧
    (streamCompletion cfg req (.interrupted cs)).result =
      .failed .streamInterruptedError ∧
    (streamCompletion cfg req (.interrupted cs)).result ≠ .normal := by
  simp [streamCompletion, h]

/-- Witness for C3 at the concrete request of src/node/index.ts and a
stream interrupted after two chunks. -/
theorem c3_interrupted_stream_witness :
    createRequest.messages ≠ [] ∧
    ((streamCompletion clientConfig createRequest
        (.interrupted ["a", "b"])).delivered = ["a", "b"] ∧
     (streamCompletion clientConfig createRequest
        (.interrupted ["a", "b"])).result = .failed .streamInterruptedError ∧
     (streamCompletion clientConfig createRequest
        (.interrupted ["a", "b"])).result ≠ .normal) :=
  ⟨by decide, c3_interrupted_stream clientConfig createRequest ["a", "b"] (by decide)⟩

/-- C4: When the endpoint cannot be reached, streamCompletion fails with
ConnectionError and the consumer is delivered zero chunks. -/
theorem c4_unreachable_connection_error (cfg : Config) (req : Request)
    (h : req.messages ≠ []) :
    (streamCompletion cfg req .unreachable).result = .failed .connectionError ∧
    (streamCompletion cfg req .unreachable).delivered = [] := by
  simp [streamCompletion, h]

/-- Witness for C4 at the concrete request of src/node/index.ts. -/
theorem c4_unreachable_connection_error_witness :
    createRequest.messages ≠ [] ∧
    ((streamCompletion clientConfig createRequest .unreachable).result =
        .failed .connectionError ∧
     (streamCompletion clientConfig createRequest .unreachable).delivered = []) :=
  ⟨by decide, c4_unreachable_connection_error clientConfig createRequest (by decide)⟩

/-- C5: When the endpoint responds with a non-success status or a body that
cannot be interpreted as a streamed completion, streamCompletion fails with
ProtocolError and the consumer is delivered zero chunks. -/
theorem c5_bad_response_protocol_error (cfg : Config) (req : Request)
    (h : req.messages ≠ []) :
    (streamCompletion cfg req .badResponse).result = .failed .protocolError ∧
    (streamCompletion cfg req .badResponse).delivered = [] := by
  simp [streamCompletion, h]

/-- Witness for C5 at the concrete request of src/node/index.ts. -/
theorem c5_bad_response_protocol_error_witness :
    createRequest.messages ≠ [] ∧
    ((streamCompletion clientConfig createRequest .badResponse).result =
        .failed .protocolError ∧
     (streamCompletion clientConfig createRequest .badResponse).delivered = []) :=
  ⟨by decide, c5_bad_response_protocol_error clientConfig createRequest (by decide)⟩

/-- C6: For every invocation of streamCompletion with a non-empty message
list, exactly one outbound connection is opened and no second request is
issued, whatever the endpoint does — including every error behavior, so no
internal retry, recovery or backoff takes place — and no local or persisted
state is modified. -/
theorem c6_single_connection_no_retry (cfg : Config) (req : Request)
    (e : EndpointBehavior) (h : req.messages ≠ []) :
    (streamCompletion cfg req e).connectionsOpened = 1 ∧
    (streamCompletion cfg req e).stateModified = false := by
  cases e <;> simp [streamCompletion, h]

/-- Witness for C6 at the concrete request of src/node/index.ts against an
unreachable endpoint. -/
theorem c6_single_connection_no_retry_witness :
    createRequest.messages ≠ [] ∧
    ((streamCompletion clientConfig createRequest .unreachable).connectionsOpened = 1 ∧
     (streamCompletion clientConfig createRequest .unreachable).stateModified = false) :=
  ⟨by decide, c6_single_connection_no_retry clientConfig createRequest .unreachable (by decide)⟩

/-- C7: The chunk sequence is forward-only and not restartable: every
iteration step that yields a chunk preserves the invariant that the yielded
prefix followed by the remainder is the original sequence, appends the
yielded chunk after all previously yielded ones (so it is yielded exactly
once, at the position following the previous yield), and strictly shrinks
the remainder, so no step can revisit an earlier element. -/
theorem c7_forward_only (orig ys rem : List Chunk) (c : Chunk)
    (s' : StreamState) (hinv : ys ++ rem = orig)
    (hstep : streamStep ⟨rem, ys⟩ = some (c, s')) :
    s'.yielded ++ s'.remaining = orig ∧
    s'.yielded = ys ++ [c] ∧
    s'.remaining.length < rem.length := by
  cases rem with
  | nil => simp [streamStep] at hstep
  | cons c0 rest =>
    simp only [streamStep, Option.some.injEq, Prod.mk.injEq] at hstep
    obtain ⟨hc, hs⟩ := hstep
    subst hc
    subst hs
    refine ⟨?_, rfl, by simp⟩
    simpa using hinv

/-- Witness for C7 at a concrete two-chunk sequence with the first chunk
being yielded. -/
theorem c7_forward_only_witness :
    ([] : List Chunk) ++ ["a", "b"] = ["a", "b"] ∧
    streamStep ⟨["a", "b"], []⟩ = some ("a", ⟨["b"], ["a"]⟩) ∧
    ((StreamState.mk ["b"] ["a"]).yielded ++
        (StreamState.mk ["b"] ["a"]).remaining = ["a", "b"] ∧
     (StreamState.mk ["b"] ["a"]).yielded = ([] : List Chunk) ++ ["a"] ∧
     (StreamState.mk ["b"] ["a"]).remaining.length <
        (["a", "b"] : List Chunk).length) :=
  ⟨rfl, rfl, c7_forward_only ["a", "b"] [] ["a", "b"] "a" ⟨["b"], ["a"]⟩ rfl rfl⟩

/-- C8: Abandoning consumption after K chunks, K strictly less than the
total, delivers exactly the first K chunks, closes the underlying
connection promptly and raises no error for the abandoned remainder; and
the connection is released on every exit path of streamCompletion
(exhaustion, any error, or the precondition violation). -/
theorem c8_abandon_releases (K : Nat) (cs : List Chunk) (cfg : Config)
    (req : Request) (e : EndpointBehavior) (h : K < cs.length) :
    (abandonAfter K cs).delivered = cs.take K ∧
    (abandonAfter K cs).connectionClosed = true ∧
    (abandonAfter K cs).errorRaised = none ∧
    (streamCompletion cfg req e).connectionReleased = true := by
  refine ⟨rfl, rfl, rfl, ?_⟩
  by_cases hm : req.messages = [] <;> cases e <;> simp [streamCompletion, hm]

/-- Witness for C8: abandoning after one chunk of a three-chunk stream at
the concrete request of src/node/index.ts. -/
theorem c8_abandon_releases_witness :
    1 < (["a", "b", "c"] : List Chunk).length ∧
    ((abandonAfter 1 ["a", "b", "c"]).delivered =
        (["a", "b", "c"] : List Chunk).take 1 ∧
     (abandonAfter 1 ["a", "b", "c"]).connectionClosed = true ∧
     (abandonAfter 1 ["a", "b", "c"]).errorRaised = none ∧
     (streamCompletion clientConfig createRequest
        (.wellBehaved ["a", "b", "c"])).connectionReleased = true) :=
  ⟨by decide, c8_abandon_releases 1 ["a", "b", "c"] clientConfig createRequest
    (.wellBehaved ["a", "b", "c"]) (by decide)⟩

/-- C9: For the concrete configuration and request hardcoded in
src/node/index.ts — baseURL http://localhost:8080/, key ollama, model test,
one user message "Say this is a test", streaming enabled — a well-behaved
endpoint emitting a non-empty chunk sequence yields exactly that non-empty
ordered sequence to the consumer, terminated normally. -/
theorem c9_concrete_scenario (cs : List Chunk) (h : cs ≠ []) :
    clientConfig.baseURL = "http://localhost:8080/" ∧
    clientConfig.key = "ollama" ∧
    createRequest.stream = true ∧
    (streamCompletion clientConfig createRequest (.wellBehaved cs)).delivered = cs ∧
    (streamCompletion clientConfig createRequest (.wellBehaved cs)).delivered ≠ [] ∧
    (streamCompletion clientConfig createRequest (.wellBehaved cs)).result = .normal := by
  refine ⟨rfl, rfl, rfl, ?_⟩
  simp [streamCompletion, createRequest, h]

/-- Witness for C9 at a concrete three-chunk reply. -/
theorem c9_concrete_scenario_witness :
    (["This", " is", " a test"] : List Chunk) ≠ [] ∧
    (clientConfig.baseURL = "http://localhost:8080/" ∧
     clientConfig.key = "ollama" ∧
     createRequest.stream = true ∧
     (streamCompletion clientConfig createRequest
        (.wellBehaved ["This", " is", " a test"])).delivered = ["This", " is", " a test"] ∧
     (streamCompletion clientConfig createRequest
        (.wellBehaved ["This", " is", " a test"])).delivered ≠ [] ∧
     (streamCompletion clientConfig createRequest
        (.wellBehaved ["This", " is", " a test"])).result = .normal) :=
  ⟨by decide, c9_concrete_scenario ["This", " is", " a test"] (by decide)⟩

/-- C10: The consumer loop of src/node/index.ts is a deterministic function
of the received chunk sequence: two runs receiving the same chunks produce
the same output, and that output is each chunk forwarded to console.log
unmodified, exactly once, in arrival order. -/
theorem c10_consumer_deterministic (cs₁ cs₂ : List Chunk) (h : cs₁ = cs₂) :
    consumeLoop cs₁ = consumeLoop cs₂ ∧ consumeLoop cs₁ = cs₁ := by
  subst h
  exact ⟨rfl, consumeLoop_eq cs₁⟩

/-- Witness for C10 at a concrete two-chunk sequence. -/
theorem c10_consumer_deterministic_witness :
    (["a", "b"] : List Chunk) = ["a", "b"] ∧
    (consumeLoop ["a", "b"] = consumeLoop ["a", "b"] ∧
     consumeLoop ["a", "b"] = ["a", "b"]) :=
  ⟨rfl, c10_consumer_deterministic ["a", "b"] ["a", "b"] rfl⟩
